import Mathlib

/-!
Verification of the tehuti results cache (src/tehuti.py) against its
natural-language specification.  The Python code is shallowly embedded:
subprocess interaction with git is abstracted into a `GitEnv` record of
(already stripped) command outcomes, Python exceptions become an explicit
`PyErr` type carried in `Except`, Python numbers are modelled as rationals,
and the JSON persistence layer is modelled by a `FileState` describing what
opening and parsing the derived path yields.
-/

/-- Python exception kinds raised by the code paths modelled here. -/
inductive PyErr
  | keyError
  | valueError
  | typeError
  | zeroDivisionError
  | calledProcessError
  | osError
deriving DecidableEq

/-- A cached metric outcome as stored in a run record: a number, a list of
numbers (repeated-trial samples), or a string (only the reserved name entry
holds a string).  Equality on this type matches Python equality on the
corresponding values: ints and floats compare by numeric value (both are
rationals here), lists compare elementwise, and values of different shapes
compare unequal. -/
inductive Value
  | num (q : ℚ)
  | str (s : String)
  | list (xs : List ℚ)
deriving DecidableEq

/-- A run record: the Python dict mapping metric ids (plus the reserved
key name) to values, modelled as an association list with unique keys
maintained by `insertEntry`. -/
abbrev RunRecord := List (String × Value)

/-- The results store: the Python dict mapping repository-state identifiers
to run records. -/
abbrev Store := List (String × RunRecord)

/-- Association-list lookup, modelling Python dict indexing. -/
def lookupKey {β : Type} : List (String × β) → String → Option β
  | [], _ => none
  | (k2, v) :: rest, k => if k2 = k then some v else lookupKey rest k

/-- Association-list insert-or-replace, modelling Python dict assignment. -/
def insertEntry {β : Type} : List (String × β) → String → β → List (String × β)
  | [], k, v => [(k, v)]
  | (k2, v2) :: rest, k, v =>
      if k2 = k then (k, v) :: rest else (k2, v2) :: insertEntry rest k v

/-- Truthiness of s.strip() in Python: the stripped string is nonempty
exactly when some character of s is not whitespace. -/
def stripTruthy (s : String) : Bool :=
  s.data.any (fun c => !c.isWhitespace)

/-- Python str.endswith, on the underlying character lists. -/
def pyEndsWith (s suf : String) : Bool :=
  suf.data.isSuffixOf s.data

/-- The filter guard `single_id and key != single_id` used by run, compare
and summary: skip the key exactly when single_id is a truthy (nonempty)
string different from the key.  None and the empty string are falsy and
never skip. -/
def sidSkips : Option String → String → Bool
  | none, _ => false
  | some s, k => s != "" && k != s

/-- Python min over a nonempty list of numbers. -/
def listMin : List ℚ → ℚ
  | [] => 0
  | x :: xs => xs.foldl min x

/-- Python min applied to a stored value: min of an empty list raises
ValueError, min of a number raises TypeError.  Python min over a string
(reachable only for string-valued outcomes, which no metric produces and
which the name-skip in compare avoids) is not modelled and treated as the
TypeError case. -/
def pyMinV : Value → Except PyErr ℚ
  | Value.list [] => Except.error PyErr.valueError
  | Value.list (x :: xs) => Except.ok (xs.foldl min x)
  | Value.num _ => Except.error PyErr.typeError
  | Value.str _ => Except.error PyErr.valueError

/-- Python float() applied to a stored value: numbers coerce, lists raise
TypeError.  float of a string (reachable only for string-valued outcomes,
which no metric produces) is treated as its non-numeric-literal case,
ValueError. -/
def pyFloat : Value → Except PyErr ℚ
  | Value.num q => Except.ok q
  | Value.list _ => Except.error PyErr.typeError
  | Value.str _ => Except.error PyErr.valueError

/-- Round-half-to-even on rationals, the rounding performed by the format
specifier with zero decimal places on the computed ratio. -/
def roundHalfEven (q : ℚ) : ℤ :=
  let f := ⌊q⌋
  let r := q - f
  if r < 1/2 then f
  else if 1/2 < r then f + 1
  else if f % 2 = 0 then f else f + 1

/-- The percentage printed for a changed metric: ratio end over start,
times one hundred, rounded to an integer. -/
def pctOf (start fin : ℚ) : ℤ :=
  roundHalfEven (fin / start * 100)

/-- Outcomes of the git subprocess calls made by tehuti, already stripped
of surrounding whitespace where the code strips them.  An error models the
Python exception escaping check_output: calledProcessError for a nonzero
exit status, osError for a missing executable. -/
structure GitEnv where
  shaOf : String → Except PyErr String
  statusOut : Except PyErr String
  describeOut : Except PyErr String

/-- sha(name): full hash of a named revision via git log (stripped). -/
def sha (env : GitEnv) (name : String) : Except PyErr String :=
  env.shaOf name

/-- working_tree_id: hash of HEAD with a -dirty suffix when git status
reports tracked-file changes; a CalledProcessError from either git call is
caught and yields the sentinel unknown, while other exceptions (OSError)
propagate, exactly as the try/except in the source catches only
subprocess.CalledProcessError. -/
def working_tree_id (env : GitEnv) : Except PyErr String :=
  match env.shaOf "HEAD" with
  | Except.error PyErr.calledProcessError => Except.ok "unknown"
  | Except.error e => Except.error e
  | Except.ok i =>
    match env.statusOut with
    | Except.error PyErr.calledProcessError => Except.ok "unknown"
    | Except.error e => Except.error e
    | Except.ok st =>
        Except.ok (if stripTruthy st then i ++ "-dirty" else i)

/-- describe_working_tree: git describe output, with any failure
propagating (no try/except in the source). -/
def describe_working_tree (env : GitEnv) : Except PyErr String :=
  env.describeOut

/-- A metric as consumed by the cache: a stable identifier and a
zero-argument measure operation whose outcome (or raised exception) is
fixed for the run being modelled. -/
structure Metric where
  id : String
  run : Except PyErr Value

/-- The measurement loop of Results.run: starting from the dict already
holding the name entry, visit the metrics in order, skip those filtered
out by single_id, store each outcome under the metric id, and let the
first raised exception propagate. -/
def measureEntries : RunRecord → List Metric → Option String → Except PyErr RunRecord
  | acc, [], _ => Except.ok acc
  | acc, m :: ms, sid =>
      if sidSkips sid m.id then measureEntries acc ms sid
      else
        match m.run with
        | Except.error e => Except.error e
        | Except.ok v => measureEntries (insertEntry acc m.id v) ms sid

/-- Results.run: resolve the current identifier, decide whether to
re-measure (force, or identifier absent, or dirty suffix), and if so build
a fresh record from the describe string and the measured outcomes and
assign it over any previous record for that identifier; otherwise leave
the store untouched.  On success the new store is returned; a raised
exception is returned as an error, in which case the assignment at the end
of the source method was never reached. -/
def Results.run (env : GitEnv) (store : Store) (metrics : List Metric)
    (force : Bool) (sid : Option String) : Except PyErr Store :=
  match working_tree_id env with
  | Except.error e => Except.error e
  | Except.ok cid =>
    if force || (lookupKey store cid).isNone || pyEndsWith cid "-dirty" then
      match describe_working_tree env with
      | Except.error e => Except.error e
      | Except.ok nm =>
        match measureEntries [("name", Value.str nm)] metrics sid with
        | Except.error e => Except.error e
        | Except.ok r => Except.ok (insertEntry store cid r)
    else
      Except.ok store

/-- One line of compare output for a metric key present in both records. -/
inductive CompareLine
  | noChange
  | changed (v1 v2 : Value) (pct : ℤ)
deriving DecidableEq

/-- The per-key body of the compare loop: report no change when the two
raw stored values are equal; otherwise, when the start value is a list,
replace both values by their minima, then compute float of the end value
divided by the start value (zero start raises ZeroDivisionError) and
report both values with the rounded percentage. -/
def compareKey (v1 v2 : Value) : Except PyErr CompareLine :=
  if v1 = v2 then Except.ok CompareLine.noChange
  else
    match v1 with
    | Value.list xs =>
      match pyMinV (Value.list xs) with
      | Except.error e => Except.error e
      | Except.ok x =>
        match pyMinV v2 with
        | Except.error e => Except.error e
        | Except.ok y =>
          if x = 0 then Except.error PyErr.zeroDivisionError
          else Except.ok (CompareLine.changed (Value.num x) (Value.num y) (pctOf x y))
    | Value.num x =>
      match pyFloat v2 with
      | Except.error e => Except.error e
      | Except.ok y =>
        if x = 0 then Except.error PyErr.zeroDivisionError
        else Except.ok (CompareLine.changed (Value.num x) v2 (pctOf x y))
    | Value.str _ =>
      match pyFloat v2 with
      | Except.error e => Except.error e
      | Except.ok _ => Except.error PyErr.typeError

/-- Dict indexing that raises KeyError on a missing key. -/
def lookupStore (store : Store) (k : String) : Except PyErr RunRecord :=
  match lookupKey store k with
  | some r => Except.ok r
  | none => Except.error PyErr.keyError

/-- The compare loop over the keys shared by both records (iterated here
in start-record order; the source iterates a key-view intersection whose
order Python leaves unspecified), skipping the reserved name key and any
key filtered out by single_id. -/
def compareEntries : List (String × Value) → RunRecord → Option String →
    Except PyErr (List (String × CompareLine))
  | [], _, _ => Except.ok []
  | (k, v1) :: rest, endRec, sid =>
    match lookupKey endRec k with
    | none => compareEntries rest endRec sid
    | some v2 =>
      if k = "name" || sidSkips sid k then compareEntries rest endRec sid
      else
        match compareKey v1 v2 with
        | Except.error e => Except.error e
        | Except.ok line =>
          match compareEntries rest endRec sid with
          | Except.error e => Except.error e
          | Except.ok tail => Except.ok ((k, line) :: tail)

/-- Results.compare: resolve the start commit via git, resolve the end
commit via git or default to the current working-tree identifier, index
the store on both identifiers (KeyError when absent), and compare the
shared keys. -/
def Results.compare (env : GitEnv) (store : Store) (start : String)
    (endRef : Option String) (sid : Option String) :
    Except PyErr (List (String × CompareLine)) :=
  match sha env start with
  | Except.error e => Except.error e
  | Except.ok start_sha =>
    match (match endRef with
           | none => working_tree_id env
           | some e2 => sha env e2) with
    | Except.error e => Except.error e
    | Except.ok end_sha =>
      match lookupStore store start_sha with
      | Except.error e => Except.error e
      | Except.ok startRec =>
        match lookupStore store end_sha with
        | Except.error e => Except.error e
        | Except.ok endRec => compareEntries startRec endRec sid

/-- The summary loop: every entry of the record is reported (the reserved
name key included - the source has no name check here), filtered only by
single_id, with list values reduced to their minimum (min of an empty list
raises ValueError). -/
def summarizeEntries : List (String × Value) → Option String →
    Except PyErr (List (String × Value))
  | [], _ => Except.ok []
  | (k, v) :: rest, sid =>
    if sidSkips sid k then summarizeEntries rest sid
    else
      match (match v with
             | Value.list [] => Except.error PyErr.valueError
             | Value.list (x :: t) => Except.ok (Value.num (t.foldl min x))
             | w => Except.ok w) with
      | Except.error e => Except.error e
      | Except.ok v2 =>
        match summarizeEntries rest sid with
        | Except.error e => Except.error e
        | Except.ok tail => Except.ok ((k, v2) :: tail)

/-- Results.summary: index the store on the current working-tree
identifier (KeyError when absent) and report its entries. -/
def Results.summary (env : GitEnv) (store : Store) (sid : Option String) :
    Except PyErr (List (String × Value)) :=
  match working_tree_id env with
  | Except.error e => Except.error e
  | Except.ok cid =>
    match lookupStore store cid with
    | Except.error e => Except.error e
    | Except.ok r => summarizeEntries r sid

/-- JSON values as produced by parsing the persisted cache file. -/
inductive JValue
  | num (q : ℚ)
  | str (s : String)
  | arr (xs : List JValue)
  | obj (fields : List (String × JValue))

/-- What opening and JSON-parsing the derived cache path yields: the file
is missing (open raises IOError), present but not valid JSON (json.load
raises ValueError), or parses to a JSON value. -/
inductive FileState
  | missing
  | invalid
  | content (j : JValue)

/-- Results.load: the IOError of a missing file is caught and yields the
empty store; a json.load ValueError on an unparseable file propagates; any
successfully parsed JSON value, mapping or not, is accepted as the results
object without a type check. -/
def Results.load (fs : FileState) : Except PyErr JValue :=
  match fs with
  | FileState.missing => Except.ok (JValue.obj [])
  | FileState.invalid => Except.error PyErr.valueError
  | FileState.content j => Except.ok j

/-- Serialization of a stored value to JSON, as json.dump renders it. -/
def encodeValue : Value → JValue
  | Value.num q => JValue.num q
  | Value.str s => JValue.str s
  | Value.list xs => JValue.arr (xs.map JValue.num)

/-- Serialization of a run record to a JSON object. -/
def encodeRecord (r : RunRecord) : JValue :=
  JValue.obj (r.map (fun kv => (kv.1, encodeValue kv.2)))

/-- Serialization of the whole store to the top-level JSON object. -/
def encodeStore (s : Store) : JValue :=
  JValue.obj (s.map (fun kv => (kv.1, encodeRecord kv.2)))

/-- Parsing a JSON array back into a list of numbers. -/
def decodeNums : List JValue → Option (List ℚ)
  | [] => some []
  | JValue.num q :: rest =>
      match decodeNums rest with
      | some qs => some (q :: qs)
      | none => none
  | _ => none

/-- Parsing a JSON value back into a stored value. -/
def decodeValue : JValue → Option Value
  | JValue.num q => some (Value.num q)
  | JValue.str s => some (Value.str s)
  | JValue.arr xs =>
      match decodeNums xs with
      | some qs => some (Value.list qs)
      | none => none
  | JValue.obj _ => none

/-- Parsing the fields of a JSON object back into a run record. -/
def decodeFields : List (String × JValue) → Option RunRecord
  | [] => some []
  | (k, j) :: rest =>
      match decodeValue j with
      | none => none
      | some v =>
        match decodeFields rest with
        | none => none
        | some r => some ((k, v) :: r)

/-- Parsing the top-level JSON object back into a store. -/
def decodeStoreFields : List (String × JValue) → Option Store
  | [] => some []
  | (k, j) :: rest =>
      match j with
      | JValue.obj fs =>
        match decodeFields fs with
        | none => none
        | some r =>
          match decodeStoreFields rest with
          | none => none
          | some s => some ((k, r) :: s)
      | _ => none

/-- Parsing a JSON value as a store: the top level must be an object of
objects of numeric or string or numeric-array leaves. -/
def decodeStore : JValue → Option Store
  | JValue.obj fs => decodeStoreFields fs
  | _ => none

/-- Results.save: json.dump writes the serialized store over the file at
the derived path, so the file afterwards parses back to exactly the
serialized JSON value. -/
def Results.save (s : Store) : FileState :=
  FileState.content (encodeStore s)

/-- The single_id validation performed by main before anything else runs:
a single_id that is not None and matches no metric id raises ValueError
(the UnknownMetric condition). -/
def mainGuard (metrics : List Metric) (sid : Option String) : Except PyErr Unit :=
  match sid with
  | none => Except.ok ()
  | some s =>
      if (metrics.map Metric.id).contains s then Except.ok ()
      else Except.error PyErr.valueError

/-- The slice of main that decides claim C4: the single_id guard runs
first and only then is Results.run invoked (load, save, compare and
summary are elided from this slice). -/
def main_model (env : GitEnv) (store : Store) (metrics : List Metric)
    (force : Bool) (sid : Option String) : Except PyErr Store :=
  match mainGuard metrics sid with
  | Except.error e => Except.error e
  | Except.ok _ => Results.run env store metrics force sid

/-- Results.run as a transformer of the self.results state: the only
assignment to the store in the source is the final statement of the
method, so when an exception propagates the store is as it was before the
call. -/
def Results.runOp (env : GitEnv) (store : Store) (metrics : List Metric)
    (force : Bool) (sid : Option String) : Except PyErr Unit × Store :=
  match Results.run env store metrics force sid with
  | Except.ok s2 => (Except.ok (), s2)
  | Except.error e => (Except.error e, store)

/-- Results.summary as a transformer of the self.results state: the
method only reads the store (no assignment occurs in the source), so the
state component is returned unchanged whether the call succeeds or
raises. -/
def Results.summaryOp (env : GitEnv) (store : Store) (sid : Option String) :
    Except PyErr (List (String × Value)) × Store :=
  (Results.summary env store sid, store)

/-- Results.compare as a transformer of the self.results state: the
method only reads the store (no assignment occurs in the source), so the
state component is returned unchanged whether the call succeeds or
raises. -/
def Results.compareOp (env : GitEnv) (store : Store) (start : String)
    (endRef : Option String) (sid : Option String) :
    Except PyErr (List (String × CompareLine)) × Store :=
  (Results.compare env store start endRef sid, store)

/-- A git environment in which every call succeeds: each revision name
resolves to itself as its full hash, the status output is empty (clean
tree) and describe yields a fixed descriptor. -/
def envOk : GitEnv :=
  { shaOf := fun n => Except.ok n
    statusOut := Except.ok ""
    describeOut := Except.ok "d0" }

/-- A git environment in which every call fails with CalledProcessError,
as when the working directory is not a repository. -/
def envFail : GitEnv :=
  { shaOf := fun _ => Except.error PyErr.calledProcessError
    statusOut := Except.error PyErr.calledProcessError
    describeOut := Except.error PyErr.calledProcessError }

/-- A git environment in which every call fails with OSError, as when the
git executable is missing. -/
def envMissingTool : GitEnv :=
  { shaOf := fun _ => Except.error PyErr.osError
    statusOut := Except.error PyErr.osError
    describeOut := Except.error PyErr.osError }

/-- A metric whose measurement succeeds with a scalar outcome. -/
def mGood : Metric := { id := "mA", run := Except.ok (Value.num 1) }

/-- A metric whose measurement raises. -/
def mBad : Metric := { id := "mB", run := Except.error PyErr.valueError }

/-- The reduction applied by summary to a successfully reported value: a
nonempty list becomes its minimum, anything else is reported as is.  The
empty-list case is unreachable on success paths because min of an empty
list raises. -/
def reduceVal : Value → Value
  | Value.list (x :: t) => Value.num (t.foldl min x)
  | w => w

deriving instance DecidableEq for Except

theorem lookupKey_insertEntry_self {β : Type} (l : List (String × β)) (k : String) (v : β) :
    lookupKey (insertEntry l k v) k = some v := by
  induction l with
  | nil => simp [insertEntry, lookupKey]
  | cons kv rest ih =>
      by_cases h : kv.1 = k
      · simp [insertEntry, h, lookupKey]
      · simpa [insertEntry, h, lookupKey] using ih

theorem lookupKey_insertEntry_ne {β : Type} (l : List (String × β)) (k : String) (v : β)
    (k2 : String) (hne : ¬ k2 = k) :
    lookupKey (insertEntry l k v) k2 = lookupKey l k2 := by
  have hke : ¬ k = k2 := fun h => hne h.symm
  induction l with
  | nil => simp [insertEntry, lookupKey, hke]
  | cons kv rest ih =>
      rcases kv with ⟨k1, v1⟩
      by_cases h : k1 = k
      · subst h
        simp [insertEntry, lookupKey, hke]
      · by_cases h2 : k1 = k2
        · simp [insertEntry, lookupKey, h, h2, hne]
        · simp [insertEntry, lookupKey, h, h2, ih]

theorem measureEntries_skip_all (ms : List Metric) (sid : Option String)
    (acc : RunRecord) (h : ∀ m ∈ ms, sidSkips sid m.id = true) :
    measureEntries acc ms sid = Except.ok acc := by
  induction ms generalizing acc with
  | nil => rfl
  | cons m rest ih =>
      have hm := h m (by simp)
      simp only [measureEntries, hm, if_true]
      exact ih acc (fun m2 hm2 => h m2 (by simp [hm2]))

theorem measureEntries_error (ms : List Metric) (sid : Option String)
    (acc : RunRecord)
    (h : ∃ m ∈ ms, sidSkips sid m.id = false ∧ ∃ e, m.run = Except.error e) :
    ∃ e2, measureEntries acc ms sid = Except.error e2 := by
  induction ms generalizing acc with
  | nil => rcases h with ⟨m, hm, _⟩; cases hm
  | cons m0 rest ih =>
      rcases h with ⟨m, hm, hskip, e, herr⟩
      rcases List.mem_cons.mp hm with hEq | hTail
      · subst hEq
        simp only [measureEntries, hskip, Bool.false_eq_true, if_false, herr]
        exact ⟨e, rfl⟩
      · by_cases h0 : sidSkips sid m0.id = true
        · simp only [measureEntries, h0, if_true]
          exact ih acc ⟨m, hTail, hskip, e, herr⟩
        · simp only [measureEntries, h0, if_false]
          cases h0r : m0.run with
          | error e0 => exact ⟨e0, rfl⟩
          | ok v0 => exact ih _ ⟨m, hTail, hskip, e, herr⟩

theorem compareEntries_keys_shared (s : List (String × Value)) (endRec : RunRecord)
    (sid : Option String) (out : List (String × CompareLine))
    (hok : compareEntries s endRec sid = Except.ok out) :
    ∀ k line, (k, line) ∈ out →
      (lookupKey s k).isSome = true ∧ (lookupKey endRec k).isSome = true := by
  induction s generalizing out with
  | nil =>
      simp only [compareEntries] at hok
      cases hok
      intro k line hmem
      cases hmem
  | cons kv rest ih =>
      intro k line hmem
      rcases kv with ⟨k0, v1⟩
      simp only [compareEntries] at hok
      split at hok
      case h_1 hlk =>
          have := ih out hok k line hmem
          by_cases hk : k0 = k
          · subst hk
            rw [hlk] at this
            cases this.2
          · simpa [lookupKey, hk] using this
      case h_2 v2 hlk =>
          split at hok
          · have := ih out hok k line hmem
            by_cases hk : k0 = k
            · subst hk
              exact ⟨by simp [lookupKey], by simp [hlk]⟩
            · simpa [lookupKey, hk] using this
          · split at hok
            · cases hok
            case h_2 line0 hck =>
              split at hok
              · cases hok
              case h_2 tail hce =>
                cases hok
                rcases List.mem_cons.mp hmem with hHead | hTail
                · cases hHead
                  exact ⟨by simp [lookupKey], by simp [hlk]⟩
                · have := ih tail hce k line hTail
                  by_cases hk : k0 = k
                  · subst hk
                    exact ⟨by simp [lookupKey], by simp [hlk]⟩
                  · simpa [lookupKey, hk] using this

theorem decodeNums_map (xs : List ℚ) : decodeNums (xs.map JValue.num) = some xs := by
  induction xs with
  | nil => rfl
  | cons x t ih => simp [decodeNums, ih]

theorem decodeValue_encodeValue (v : Value) : decodeValue (encodeValue v) = some v := by
  cases v with
  | num q => rfl
  | str s => rfl
  | list xs => simp [encodeValue, decodeValue, decodeNums_map]

theorem decodeFields_encodeRecord (r : RunRecord) :
    decodeFields (r.map fun kv => (kv.1, encodeValue kv.2)) = some r := by
  induction r with
  | nil => rfl
  | cons kv rest ih => simp [decodeFields, decodeValue_encodeValue, ih]

theorem decodeStoreFields_encodeStore (s : Store) :
    decodeStoreFields (s.map fun kv => (kv.1, encodeRecord kv.2)) = some s := by
  induction s with
  | nil => rfl
  | cons kv rest ih =>
      have ih2 := ih
      simp only [encodeRecord] at ih2
      rcases kv with ⟨k, r⟩
      rw [List.map_cons]
      simp only [decodeStoreFields, encodeRecord, decodeFields_encodeRecord, ih2]

theorem summarizeEntries_ok (r : List (String × Value)) (sid : Option String)
    (h : ∀ k xs, (k, Value.list xs) ∈ r → sidSkips sid k = false → xs ≠ []) :
    summarizeEntries r sid =
      Except.ok ((r.filter fun kv => !sidSkips sid kv.1).map
        fun kv => (kv.1, reduceVal kv.2)) := by
  induction r with
  | nil => rfl
  | cons kv rest ih =>
      rcases kv with ⟨k, v⟩
      have htail := ih (fun k2 xs hmem hsk => h k2 xs (by simp [hmem]) hsk)
      by_cases hskip : sidSkips sid k = true
      · simp only [summarizeEntries, hskip, if_true, List.filter, htail]
        simp [hskip]
      · have hskipF : sidSkips sid k = false := by
          cases hv : sidSkips sid k
          · rfl
          · exact absurd hv hskip
        cases v with
        | num q =>
            simp only [summarizeEntries, hskipF, Bool.false_eq_true, if_false, htail]
            simp [List.filter, hskipF, reduceVal]
        | str s =>
            simp only [summarizeEntries, hskipF, Bool.false_eq_true, if_false, htail]
            simp [List.filter, hskipF, reduceVal]
        | list xs =>
            cases xs with
            | nil => exact absurd rfl (h k [] (by simp) hskipF)
            | cons x t =>
                simp only [summarizeEntries, hskipF, Bool.false_eq_true, if_false, htail]
                simp [List.filter, hskipF, reduceVal]


/-- Claim C1: for every store, metric sequence, force flag and single_id,
run re-measures exactly when force is true, or the current identifier has
no record in the store, or the identifier carries the dirty suffix; when
it re-measures (and measurement succeeds) it replaces the record under
that identifier in full with the freshly built record, so metrics not
re-measured vanish; when it does not re-measure the store is returned
entirely unchanged, so a second run on a clean, present identifier with
force false leaves the stored record unchanged. -/
theorem C1_run_cache_policy (env : GitEnv) (store : Store) (metrics : List Metric)
    (force : Bool) (sid : Option String) (cid : String)
    (hcid : working_tree_id env = Except.ok cid) :
    ((force || (lookupKey store cid).isNone || pyEndsWith cid "-dirty") = false →
      Results.run env store metrics force sid = Except.ok store) ∧
    (∀ nm r, (force || (lookupKey store cid).isNone || pyEndsWith cid "-dirty") = true →
      describe_working_tree env = Except.ok nm →
      measureEntries [("name", Value.str nm)] metrics sid = Except.ok r →
      Results.run env store metrics force sid = Except.ok (insertEntry store cid r) ∧
      lookupKey (insertEntry store cid r) cid = some r) := by
  constructor
  · intro hcond
    simp only [Results.run, hcid, hcond, Bool.false_eq_true, if_false]
  · intro nm r hcond hnm hms
    refine ⟨?_, lookupKey_insertEntry_self store cid r⟩
    simp only [Results.run, hcid, hcond, hnm, hms, if_true]

/-- Witness for C1: on a clean, present identifier with force false the
store is unchanged; with force true the old record is fully replaced. -/
theorem C1_run_cache_policy_witness :
    Results.run envOk [("HEAD", [("name", Value.str "old")])] [mGood] false none =
      Except.ok [("HEAD", [("name", Value.str "old")])] ∧
    Results.run envOk [("HEAD", [("name", Value.str "old")])] [mGood] true none =
      Except.ok [("HEAD", [("name", Value.str "d0"), ("mA", Value.num 1)])] := by
  constructor
  · exact (C1_run_cache_policy envOk [("HEAD", [("name", Value.str "old")])] [mGood]
      false none "HEAD" (by decide)).1 (by decide)
  · have h := (C1_run_cache_policy envOk [("HEAD", [("name", Value.str "old")])] [mGood]
      true none "HEAD" (by decide)).2
      "d0" [("name", Value.str "d0"), ("mA", Value.num 1)] (by decide) (by decide) (by decide)
    exact h.1.trans (by decide)

/-- Counterexample to claim C2: the records hold two different lists with
equal minima; compare reports a changed line with ratio 100 percent for
that key, not no change, because the equality test happens on the raw
values before any min-reduction. -/
theorem C2_counterexample_equal_minima_lists :
    listMin [5, 10] = listMin [5, 20] ∧
    compareKey (Value.list [5, 10]) (Value.list [5, 20]) =
      Except.ok (CompareLine.changed (Value.num 5) (Value.num 5) 100) ∧
    ¬ compareKey (Value.list [5, 10]) (Value.list [5, 20]) =
      Except.ok CompareLine.noChange := by
  have h2 : compareKey (Value.list [5, 10]) (Value.list [5, 20]) =
      Except.ok (CompareLine.changed (Value.num 5) (Value.num 5) 100) := by
    norm_num [compareKey, pyMinV, pctOf, roundHalfEven]
  refine ⟨by norm_num [listMin, min_def], h2, ?_⟩
  rw [h2]
  simp

/-- Claim C2 as amended: for a metric key shared by both records, compare
reports no change exactly when the two raw stored values are equal - the
equality test precedes the min-reduction, which is applied only on the
changed branch. -/
theorem C2_no_change_iff_raw_equal (v1 v2 : Value) :
    compareKey v1 v2 = Except.ok CompareLine.noChange ↔ v1 = v2 := by
  constructor
  · intro h
    by_contra hv
    rw [compareKey.eq_def, if_neg hv] at h
    repeat' split at h
    all_goals cases h
  · intro h
    rw [compareKey.eq_def, if_pos h]

/-- Witness for the amended C2 at a concrete shared key with equal
values. -/
theorem C2_no_change_iff_raw_equal_witness :
    compareKey (Value.num 3) (Value.num 3) = Except.ok CompareLine.noChange :=
  (C2_no_change_iff_raw_equal (Value.num 3) (Value.num 3)).mpr rfl

/-- Claim C8: when some metric that run actually visits raises during
measurement, the exception propagates out of run and no entry is written
to the store under the current identifier - the self.results state after
the aborted call is exactly the state before it. -/
theorem C8_metric_failure_aborts_run (env : GitEnv) (store : Store)
    (ms : List Metric) (force : Bool) (sid : Option String) (cid nm : String)
    (hcid : working_tree_id env = Except.ok cid)
    (hnm : describe_working_tree env = Except.ok nm)
    (hcond : (force || (lookupKey store cid).isNone || pyEndsWith cid "-dirty") = true)
    (hfail : ∃ m ∈ ms, sidSkips sid m.id = false ∧ ∃ e, m.run = Except.error e) :
    ∃ e2, Results.run env store ms force sid = Except.error e2 ∧
      Results.runOp env store ms force sid = (Except.error e2, store) := by
  rcases measureEntries_error ms sid [("name", Value.str nm)] hfail with ⟨e2, hm⟩
  refine ⟨e2, ?_, ?_⟩
  · simp only [Results.run, hcid, hcond, hnm, hm, if_true]
  · simp only [Results.runOp, Results.run, hcid, hcond, hnm, hm, if_true]

/-- Witness for C8: a sequence with one good and one raising metric makes
run propagate the error with the store unchanged. -/
theorem C8_metric_failure_aborts_run_witness :
    ∃ e2, Results.run envOk [] [mGood, mBad] false none = Except.error e2 ∧
      Results.runOp envOk [] [mGood, mBad] false none = (Except.error e2, ([] : Store)) :=
  C8_metric_failure_aborts_run envOk [] [mGood, mBad] false none "HEAD" "d0"
    (by decide) (by decide) (by decide)
    ⟨mBad, by simp, by decide, PyErr.valueError, by decide⟩

/-- Counterexample to claim C3: with a scalar start value and a
list-valued end value for the shared key, compare does not reduce the
list to its minimum and report a ratio - the reduction is keyed on the
start value's shape only, so float of the list raises TypeError. -/
theorem C3_counterexample_mixed_shapes :
    Results.compare envOk
      [("A", [("m", Value.num 10)]), ("B", [("m", Value.list [8, 9])])]
      "A" (some "B") none = Except.error PyErr.typeError ∧
    ¬ Results.compare envOk
      [("A", [("m", Value.num 10)]), ("B", [("m", Value.list [8, 9])])]
      "A" (some "B") none =
      Except.ok [("m", CompareLine.changed (Value.num 10) (Value.num 8) (pctOf 10 8))] := by
  have h : Results.compare envOk
      [("A", [("m", Value.num 10)]), ("B", [("m", Value.list [8, 9])])]
      "A" (some "B") none = Except.error PyErr.typeError := by decide
  refine ⟨h, ?_⟩
  rw [h]
  simp

/-- Claim C3 as amended: for a shared metric key with differing values of
the same shape, compare reduces list-valued outcomes to their minima and
reports the ratio end over start as a rounded percentage, with a zero
start value raising ZeroDivisionError; start 10 and end 15 give 150
percent, start the list 10, 20, 5 and end the list 8, 9 give 160 percent;
a metric present in only one record never appears in the output.  When the
start value is a scalar and the end a list, no reduction occurs and the
ratio computation is a TypeError instead. -/
theorem C3_ratio_reporting :
    (∀ a b : ℚ, ¬ a = b →
      compareKey (Value.num a) (Value.num b) =
        (if a = 0 then Except.error PyErr.zeroDivisionError
         else Except.ok (CompareLine.changed (Value.num a) (Value.num b) (pctOf a b)))) ∧
    (∀ xs ys : List ℚ, xs ≠ [] → ys ≠ [] → ¬ Value.list xs = Value.list ys →
      compareKey (Value.list xs) (Value.list ys) =
        (if listMin xs = 0 then Except.error PyErr.zeroDivisionError
         else Except.ok (CompareLine.changed (Value.num (listMin xs))
            (Value.num (listMin ys)) (pctOf (listMin xs) (listMin ys))))) ∧
    Results.compare envOk
      [("A", [("name", Value.str "vA"), ("m", Value.num 10), ("l", Value.list [10, 20, 5])]),
       ("B", [("name", Value.str "vB"), ("m", Value.num 15), ("l", Value.list [8, 9])])]
      "A" (some "B") none =
      Except.ok [("m", CompareLine.changed (Value.num 10) (Value.num 15) 150),
                 ("l", CompareLine.changed (Value.num 5) (Value.num 8) 160)] ∧
    (∀ (s e : RunRecord) (sid : Option String) (out : List (String × CompareLine)),
      compareEntries s e sid = Except.ok out →
      ∀ k line, (k, line) ∈ out →
        (lookupKey s k).isSome = true ∧ (lookupKey e k).isSome = true) := by
  refine ⟨?_, ?_, ?_, compareEntries_keys_shared⟩
  · intro a b hab
    have hne : ¬ (Value.num a = Value.num b) := by simp [hab]
    by_cases ha : a = 0
    · have hab0 : ¬ (0 : ℚ) = b := ha ▸ hab
      simp [compareKey, pyFloat, ha, hab0]
    · simp [compareKey, hne, pyFloat, ha]
  · intro xs ys hxs hys hne
    obtain ⟨x, t, rfl⟩ := List.exists_cons_of_ne_nil hxs
    obtain ⟨y, u, rfl⟩ := List.exists_cons_of_ne_nil hys
    by_cases h0 : listMin (x :: t) = 0
    · have h0f : t.foldl min x = 0 := h0
      simp [compareKey, hne, pyMinV, listMin, h0f]
    · have h0f : ¬ t.foldl min x = 0 := h0
      simp [compareKey, hne, pyMinV, listMin, h0f]
  · norm_num [Results.compare, sha, envOk, lookupStore, lookupKey, compareEntries, sidSkips,
      compareKey, pyMinV, pyFloat,
      show pctOf 10 15 = 150 from by norm_num [pctOf, roundHalfEven],
      show pctOf 5 8 = 160 from by norm_num [pctOf, roundHalfEven],
      show ¬ ("A" : String) = "B" from by decide,
      show ¬ ("name" : String) = "m" from by decide,
      show ¬ ("name" : String) = "l" from by decide,
      show ¬ ("m" : String) = "name" from by decide,
      show ¬ ("m" : String) = "l" from by decide,
      show ¬ ("l" : String) = "name" from by decide]

/-- Witness for the amended C3 at concrete values: scalars 10 and 15,
and the two lists of the specification example. -/
theorem C3_ratio_reporting_witness :
    compareKey (Value.num 10) (Value.num 15) =
      (if (10 : ℚ) = 0 then Except.error PyErr.zeroDivisionError
       else Except.ok (CompareLine.changed (Value.num 10) (Value.num 15) (pctOf 10 15))) ∧
    compareKey (Value.list [10, 20, 5]) (Value.list [8, 9]) =
      (if listMin [10, 20, 5] = 0 then Except.error PyErr.zeroDivisionError
       else Except.ok (CompareLine.changed (Value.num (listMin [10, 20, 5]))
          (Value.num (listMin [8, 9])) (pctOf (listMin [10, 20, 5]) (listMin [8, 9])))) :=
  ⟨C3_ratio_reporting.1 10 15 (by norm_num),
   C3_ratio_reporting.2.1 [10, 20, 5] [8, 9] (by simp) (by simp) (by simp)⟩

/-- Counterexample to claim C4: calling Results.run directly with a
single_id matching no metric does not fail and does not leave the store
unchanged - every metric is skipped and, the identifier being absent, a
record holding only the name entry is written. -/
theorem C4_counterexample_run_accepts_unknown_single_id :
    Results.run envOk [] [mGood] false (some "zzz") =
      Except.ok [("HEAD", [("name", Value.str "d0")])] ∧
    ¬ Results.run envOk [] [mGood] false (some "zzz") = Except.error PyErr.valueError ∧
    ¬ Results.run envOk [] [mGood] false (some "zzz") = Except.ok [] := by
  exact ⟨by decide, by decide, by decide⟩

/-- Claim C4 as amended: the unknown-single_id validation lives in main,
which raises ValueError before Results.run executes, so via the command
line no metric runs and the store is untouched; Results.run itself
performs no such check - with a single_id that skips every metric it
measures nothing, and when re-measurement triggers it replaces the record
with one holding only the name entry. -/
theorem C4_unknown_single_id_guard_in_main :
    (∀ (metrics : List Metric) (s : String),
      ((metrics.map Metric.id).contains s) = false →
      ∀ (env : GitEnv) (store : Store) (force : Bool),
        main_model env store metrics force (some s) = Except.error PyErr.valueError) ∧
    (∀ (env : GitEnv) (store : Store) (metrics : List Metric) (force : Bool)
      (s cid nm : String),
      working_tree_id env = Except.ok cid →
      describe_working_tree env = Except.ok nm →
      (force || (lookupKey store cid).isNone || pyEndsWith cid "-dirty") = true →
      (metrics.all fun m => sidSkips (some s) m.id) = true →
      Results.run env store metrics force (some s) =
        Except.ok (insertEntry store cid [("name", Value.str nm)])) := by
  constructor
  · intro metrics s hno env store force
    simp only [main_model, mainGuard, hno, Bool.false_eq_true, if_false]
  · intro env store metrics force s cid nm hcid hnm hcond hall
    have hms : measureEntries [("name", Value.str nm)] metrics (some s) =
        Except.ok [("name", Value.str nm)] :=
      measureEntries_skip_all metrics (some s) _
        (fun m hm => List.all_eq_true.mp hall m hm)
    simp only [Results.run, hcid, hcond, hnm, hms, if_true]

/-- Witness for the amended C4: the main guard rejects an unknown
single_id before run, while Results.run called directly writes a
name-only record. -/
theorem C4_unknown_single_id_guard_in_main_witness :
    main_model envOk [] [mGood] false (some "zzz") = Except.error PyErr.valueError ∧
    Results.run envOk [] [mGood] false (some "zzz") =
      Except.ok (insertEntry [] "HEAD" [("name", Value.str "d0")]) := by
  constructor
  · exact C4_unknown_single_id_guard_in_main.1 [mGood] "zzz" (by decide) envOk [] false
  · exact C4_unknown_single_id_guard_in_main.2 envOk [] [mGood] false "zzz" "HEAD" "d0"
      (by decide) (by decide) (by decide) (by decide)

/-- Counterexample to claim C5: when every git call fails with
CalledProcessError, working_tree_id does return the sentinel unknown, but
a subsequent run does not proceed to measure and cache under that key -
it aborts in describe_working_tree; and a missing git executable
(OSError) propagates out of working_tree_id instead of yielding the
sentinel. -/
theorem C5_counterexample_run_aborts_when_git_fails :
    working_tree_id envFail = Except.ok "unknown" ∧
    Results.run envFail [] [mGood] false none = Except.error PyErr.calledProcessError ∧
    working_tree_id envMissingTool = Except.error PyErr.osError := by
  exact ⟨by decide, by decide, by decide⟩

/-- Claim C5 as amended: a CalledProcessError from the version-control
tooling makes working_tree_id return the sentinel unknown instead of
raising (an OSError from a missing tool propagates); a subsequent
re-measuring run under the unknown identifier first invokes
describe_working_tree, whose failure propagates and aborts the run, so
outcomes are measured and cached under the unknown key only when the
describe call succeeds. -/
theorem C5_unknown_sentinel_policy :
    (∀ env : GitEnv, env.shaOf "HEAD" = Except.error PyErr.calledProcessError →
      working_tree_id env = Except.ok "unknown") ∧
    (∀ (env : GitEnv) (i : String), env.shaOf "HEAD" = Except.ok i →
      env.statusOut = Except.error PyErr.calledProcessError →
      working_tree_id env = Except.ok "unknown") ∧
    (∀ (env : GitEnv) (store : Store) (ms : List Metric) (sid : Option String) (e : PyErr),
      working_tree_id env = Except.ok "unknown" →
      lookupKey store "unknown" = none →
      describe_working_tree env = Except.error e →
      Results.run env store ms false sid = Except.error e) ∧
    (∀ (env : GitEnv) (store : Store) (ms : List Metric) (sid : Option String)
      (nm : String) (r : RunRecord),
      working_tree_id env = Except.ok "unknown" →
      lookupKey store "unknown" = none →
      describe_working_tree env = Except.ok nm →
      measureEntries [("name", Value.str nm)] ms sid = Except.ok r →
      Results.run env store ms false sid = Except.ok (insertEntry store "unknown" r)) := by
  refine ⟨?_, ?_, ?_, ?_⟩
  · intro env h
    simp only [working_tree_id, h]
  · intro env i h hs
    simp only [working_tree_id, h, hs]
  · intro env store ms sid e hcid habs hd
    have hcond : (false || (lookupKey store "unknown").isNone ||
        pyEndsWith "unknown" "-dirty") = true := by simp [habs]
    simp only [Results.run, hcid, hcond, hd, if_true]
  · intro env store ms sid nm r hcid habs hd hms
    have hcond : (false || (lookupKey store "unknown").isNone ||
        pyEndsWith "unknown" "-dirty") = true := by simp [habs]
    simp only [Results.run, hcid, hcond, hd, hms, if_true]

/-- Witness for the amended C5: in the all-fail environment the sentinel
is returned and the subsequent run propagates the describe failure. -/
theorem C5_unknown_sentinel_policy_witness :
    working_tree_id envFail = Except.ok "unknown" ∧
    Results.run envFail [] [mGood] false none = Except.error PyErr.calledProcessError := by
  constructor
  · exact C5_unknown_sentinel_policy.1 envFail (by decide)
  · exact C5_unknown_sentinel_policy.2.2.1 envFail [] [mGood] none
      PyErr.calledProcessError (by decide) (by decide) (by decide)

/-- Counterexample to claim C6: summary does not exclude the reserved
name key - the record's name entry is reported alongside the metric
entries, because the source iterates every item of the record with no
name check (only compare has one). -/
theorem C6_counterexample_summary_reports_name :
    Results.summary envOk
      [("HEAD", [("name", Value.str "v1"), ("m", Value.list [3, 1])])] none =
      Except.ok [("name", Value.str "v1"), ("m", Value.num 1)] ∧
    ¬ Results.summary envOk
      [("HEAD", [("name", Value.str "v1"), ("m", Value.list [3, 1])])] none =
      Except.ok [("m", Value.num 1)] := by
  exact ⟨by decide, by decide⟩

/-- Claim C6 as amended: summary fails with KeyError (the NoSuchRecord
condition) when the current identifier has no record; otherwise it
reports every entry of the record - the reserved name key included -
excluding only entries not matching single_id, reducing each list-valued
outcome to its minimum element. -/
theorem C6_summary_behavior :
    (∀ (env : GitEnv) (store : Store) (sid : Option String) (cid : String),
      working_tree_id env = Except.ok cid →
      lookupKey store cid = none →
      Results.summary env store sid = Except.error PyErr.keyError) ∧
    (∀ (env : GitEnv) (store : Store) (sid : Option String) (cid : String) (r : RunRecord),
      working_tree_id env = Except.ok cid →
      lookupKey store cid = some r →
      (∀ k xs, (k, Value.list xs) ∈ r → sidSkips sid k = false → xs ≠ []) →
      Results.summary env store sid =
        Except.ok ((r.filter fun kv => !sidSkips sid kv.1).map
          fun kv => (kv.1, reduceVal kv.2))) := by
  constructor
  · intro env store sid cid hcid habs
    simp only [Results.summary, hcid, lookupStore, habs]
  · intro env store sid cid r hcid hsome h
    simp only [Results.summary, hcid, lookupStore, hsome]
    exact summarizeEntries_ok r sid h

/-- Witness for the amended C6: a missing record raises KeyError and a
present record is reported in full with its name entry. -/
theorem C6_summary_behavior_witness :
    Results.summary envOk [] none = Except.error PyErr.keyError ∧
    Results.summary envOk
      [("HEAD", [("name", Value.str "v1"), ("m", Value.list [3, 1])])] none =
      Except.ok (([("name", Value.str "v1"), ("m", Value.list [3, 1])].filter
        fun kv => !sidSkips none kv.1).map fun kv => (kv.1, reduceVal kv.2)) := by
  constructor
  · exact C6_summary_behavior.1 envOk [] none "HEAD" (by decide) (by decide)
  · refine C6_summary_behavior.2 envOk _ none "HEAD"
      [("name", Value.str "v1"), ("m", Value.list [3, 1])] (by decide) (by decide) ?_
    intro k xs hmem hsk
    simp at hmem
    simp [hmem.2]

/-- Counterexample to claim C7: a persisted file whose top-level JSON
value is not a mapping (an array, or a bare number) is accepted by load
without any error - the source performs no type check on the parsed
value. -/
theorem C7_counterexample_non_mapping_accepted :
    Results.load (FileState.content (JValue.arr [])) = Except.ok (JValue.arr []) ∧
    ¬ Results.load (FileState.content (JValue.arr [])) = Except.error PyErr.valueError ∧
    ¬ Results.load (FileState.content (JValue.num 3)) = Except.error PyErr.valueError := by
  refine ⟨rfl, ?_, ?_⟩
  · intro h
    cases h
  · intro h
    cases h

/-- Claim C7 as amended: load returns the empty store when no persisted
file exists (not an error), and propagates the ValueError of json.load
(the CorruptStore condition) when the file exists but is not valid JSON;
a file that parses to any JSON value, mapping or not, is accepted as is
with no top-level type check. -/
theorem C7_load_behavior :
    Results.load FileState.missing = Except.ok (JValue.obj []) ∧
    Results.load FileState.invalid = Except.error PyErr.valueError ∧
    ∀ j : JValue, Results.load (FileState.content j) = Except.ok j := by
  exact ⟨rfl, rfl, fun j => rfl⟩

/-- Witness for the amended C7 at a concrete parsed value. -/
theorem C7_load_behavior_witness :
    Results.load (FileState.content (JValue.num 3)) = Except.ok (JValue.num 3) :=
  C7_load_behavior.2.2 (JValue.num 3)

/-- Claim C9: saving a store and loading it back reproduces an
equivalent store - the persisted JSON of save parses back to exactly the
serialized value, and that value decodes to the original store. -/
theorem C9_save_load_roundtrip (S : Store) :
    Results.load (Results.save S) = Except.ok (encodeStore S) ∧
    decodeStore (encodeStore S) = some S := by
  refine ⟨rfl, ?_⟩
  simp only [encodeStore, decodeStore]
  exact decodeStoreFields_encodeStore S

/-- Witness for C9 at a concrete store. -/
theorem C9_save_load_roundtrip_witness :
    Results.load (Results.save [("HEAD", [("name", Value.str "v1"), ("m", Value.list [3, 1])])]) =
      Except.ok (encodeStore [("HEAD", [("name", Value.str "v1"), ("m", Value.list [3, 1])])]) ∧
    decodeStore (encodeStore [("HEAD", [("name", Value.str "v1"), ("m", Value.list [3, 1])])]) =
      some [("HEAD", [("name", Value.str "v1"), ("m", Value.list [3, 1])])] :=
  C9_save_load_roundtrip [("HEAD", [("name", Value.str "v1"), ("m", Value.list [3, 1])])]

theorem run_ok_shape (env : GitEnv) (store : Store) (ms : List Metric) (force : Bool)
    (sid : Option String) (cid : String) (s2 : Store)
    (hcid : working_tree_id env = Except.ok cid)
    (h : Results.run env store ms force sid = Except.ok s2) :
    s2 = store ∨ ∃ r, s2 = insertEntry store cid r := by
  simp only [Results.run, hcid] at h
  split at h
  · split at h
    · cases h
    · split at h
      · cases h
      · cases h
        exact Or.inr ⟨_, rfl⟩
  · cases h
    exact Or.inl rfl

/-- Claim C10: summary and compare never change the in-memory results
mapping - the state component of their state-passing forms is returned
identical, succeeding or failing - and run modifies at most the entry
keyed by the current working-tree identifier, leaving the record of
every other identifier unchanged. -/
theorem C10_frame_effects :
    (∀ (env : GitEnv) (store : Store) (sid : Option String),
      (Results.summaryOp env store sid).2 = store) ∧
    (∀ (env : GitEnv) (store : Store) (start : String) (endRef sid : Option String),
      (Results.compareOp env store start endRef sid).2 = store) ∧
    (∀ (env : GitEnv) (store : Store) (ms : List Metric) (force : Bool)
      (sid : Option String) (k : String),
      (∀ cid, working_tree_id env = Except.ok cid → ¬ k = cid) →
      lookupKey (Results.runOp env store ms force sid).2 k = lookupKey store k) := by
  refine ⟨fun env store sid => rfl, fun env store start endRef sid => rfl, ?_⟩
  intro env store ms force sid k hk
  cases hr : Results.run env store ms force sid with
  | error e => simp only [Results.runOp, hr]
  | ok s2 =>
      simp only [Results.runOp, hr]
      cases hcid : working_tree_id env with
      | error e =>
          simp only [Results.run, hcid] at hr
          cases hr
      | ok cid =>
          rcases run_ok_shape env store ms force sid cid s2 hcid hr with hsame | ⟨r, hins⟩
          · rw [hsame]
          · rw [hins]
            exact lookupKey_insertEntry_ne store cid r k (hk cid hcid)

/-- Witness for C10 at concrete inputs: summary and compare pass the
store through unchanged, and a forced run leaves an unrelated record
untouched. -/
theorem C10_frame_effects_witness :
    (Results.summaryOp envOk [] none).2 = ([] : Store) ∧
    (Results.compareOp envOk [] "A" none none).2 = ([] : Store) ∧
    lookupKey (Results.runOp envOk [("other", [])] [mGood] true none).2 "other" =
      lookupKey [("other", ([] : RunRecord))] "other" := by
  refine ⟨C10_frame_effects.1 envOk [] none,
          C10_frame_effects.2.1 envOk [] "A" none none,
          C10_frame_effects.2.2 envOk [("other", [])] [mGood] true none "other" ?_⟩
  intro cid hcid
  have h2 : working_tree_id envOk = Except.ok "HEAD" := by decide
  have h3 : "HEAD" = cid := Except.ok.inj (h2.symm.trans hcid)
  rw [← h3]
  decide
